import Mathlib

/-!
Verification development for the Zombie distributed OIDC server.

Shallow embedding of the parts of the repository relevant to the frozen
claims: the CouchDB design-document view that detects conflicted documents
(`src/utils/database-setup.js`), the CouchDB connection wait loop
(`src/database.js`), the process startup sequence and `/health` endpoint
(server entry point), the OIDC route handlers (`src/routes/auth.js`),
credential masking in `Database.getInstanceInfo`, and — where the
repository code for the conflict classifier / resolution engine is not
available — definitions modelled from the specification's own wording.
-/

namespace Zombie

/-! ## CouchDB documents and the conflict-detection view

From `createInstancesDesignDoc` in `src/utils/database-setup.js`:
the `conflicts` view's map function is
`function(doc) { if (doc._conflicts) { emit(doc._id, doc); } }`.
A document's `_conflicts` field is either absent (JS `undefined`, falsy)
or present (an array of sibling revision ids, truthy); we model it as an
`Option`. -/

/-- A CouchDB document as seen by the `_design/instances` views: its `_id`,
optional `instance_id`, optional `_conflicts` sibling-revision list, and
optional `modified_at`. -/
structure CouchDoc where
  docId : String
  instanceId : Option String
  conflicts : Option (List String)
  modifiedAt : Option String
  deriving Repr, DecidableEq

/-- The map function of the `conflicts` view in `_design/instances`:
emits `(doc._id, doc)` exactly when `doc._conflicts` is present (truthy). -/
def conflictsViewMap (doc : CouchDoc) : List (String × CouchDoc) :=
  match doc.conflicts with
  | some _ => [(doc.docId, doc)]
  | none => []

/-- Running the `conflicts` view over a whole database: concatenate the
per-document emissions. -/
def conflictsViewRows (db : List CouchDoc) : List (String × CouchDoc) :=
  db.flatMap conflictsViewMap

/-! ## CouchDB connection wait loop

From `Database.waitForCouchDB` in `src/database.js`:
`maxRetries = 30`; in a loop `while (retries < maxRetries)` it probes the
server (`client.info()`); on success it returns, on failure it sleeps a
fixed 2000 ms and increments `retries`; once the loop exhausts it throws
`'CouchDB not available after maximum retries'`.

We model the probe as a function from the attempt index to success,
and return, alongside the result, the list of sleep durations performed;
a successful run reports the (1-based) number of attempts made. -/

def couchTimeoutMsg : String := "CouchDB not available after maximum retries"

/-- The wait loop body, with `fuel = maxRetries - retries` making the
`while (retries < maxRetries)` loop structural. Returns the attempt count
on success (or the timeout error) together with the list of delays slept. -/
def waitLoop (probe : Nat → Bool) : Nat → Nat → Except String Nat × List Nat
  | _, 0 => (.error couchTimeoutMsg, [])
  | retries, fuel + 1 =>
    if probe retries then
      (.ok (retries + 1), [])
    else
      let rest := waitLoop probe (retries + 1) fuel
      (rest.1, 2000 :: rest.2)

/-- `Database.waitForCouchDB`: at most 30 probe attempts with a 2000 ms
sleep after each failure. -/
def waitForCouchDB (probe : Nat → Bool) : Except String Nat × List Nat :=
  waitLoop probe 0 30

/-! ## Process startup and the health endpoint

From the server entry point (`startOIDCServer`): the whole initialization
sequence (`database.initialize()`, `database.initializeDatabaseStructure()`,
sync-monitor startup) runs in a `try`; any error is caught and the process
terminates via `process.exit(1)`; otherwise the HTTP server starts
listening. -/

/-- Outcome of the startup sequence: either the server is left running, or
the process exited with the given code. -/
inductive StartupOutcome where
  | running
  | exitedWith (code : Nat)
  deriving Repr, DecidableEq

/-- `startOIDCServer`: a failure anywhere in initialization is caught by the
surrounding `try`/`catch`, which logs and calls `process.exit(1)`. -/
def startOIDCServer (initResult : Except String Unit) : StartupOutcome :=
  match initResult with
  | .ok _ => .running
  | .error _ => .exitedWith 1

/-- `Database.initialize`: waits for CouchDB, then tests the database with
`db.info()`; either failure propagates as an error. -/
def databaseInitialize (probe : Nat → Bool) (dbInfoOk : Bool) : Except String Unit :=
  match (waitForCouchDB probe).1 with
  | .error e => .error e
  | .ok _ => if dbInfoOk then .ok () else .error "Database not accessible"

/-- Result shape of `Database.testConnection`: `connected` plus either the
database name and document count, or an error message. The method catches
its own errors and never throws. -/
structure DbStatus where
  connected : Bool
  database : Option String
  docCount : Option Nat
  errMsg : Option String
  deriving Repr, DecidableEq

/-- Aggregate replication state of the Sync Monitor (spec §4.6). The
monitor's implementation is not part of the health handler's inputs; this
type only serves to show that the health payload ignores it. -/
inductive ReplAggregate where
  | active
  | degraded
  | unreachable
  deriving Repr, DecidableEq

/-- The server state visible to a request handler: current database status,
the sync monitor's aggregate replication state, the current time and the
recorded server start time (both in ms). -/
structure ServerState where
  db : DbStatus
  monitorAggregate : ReplAggregate
  nowMs : Nat
  startMs : Nat
  deriving Repr, DecidableEq

/-- `formatUptime` from the server entry point: renders seconds as
`"<d>d <h>h <m>m <s>s"`, omitting zero parts except that a `0s` is kept
when every part is zero. -/
def formatUptime (seconds : Nat) : String :=
  let days := seconds / 86400
  let hours := (seconds % 86400) / 3600
  let minutes := (seconds % 3600) / 60
  let secs := seconds % 60
  let parts : List String :=
    (if days > 0 then [toString days ++ "d"] else []) ++
    (if hours > 0 then [toString hours ++ "h"] else []) ++
    (if minutes > 0 then [toString minutes ++ "m"] else [])
  let parts := if secs > 0 || parts.isEmpty then parts ++ [toString secs ++ "s"] else parts
  String.intercalate " " parts

/-- The JSON payload of `GET /health`: status, fixed service name and
version, timestamp, uptime block, and the database status. -/
structure HealthPayload where
  status : String
  service : String
  version : String
  timestampMs : Nat
  uptimeMs : Nat
  uptimeSeconds : Nat
  uptimeHuman : String
  database : DbStatus
  deriving Repr, DecidableEq

/-- The `GET /health` handler: computes `database.testConnection()` and the
uptime, and answers `status: dbStatus.connected ? 'ok' : 'degraded'` with
the database status embedded; nothing else is consulted. -/
def healthHandler (st : ServerState) : HealthPayload :=
  let uptimeMs := st.nowMs - st.startMs
  let uptimeSeconds := uptimeMs / 1000
  { status := if st.db.connected then "ok" else "degraded"
    service := "Zombie OIDC"
    version := "0.1.0"
    timestampMs := st.nowMs
    uptimeMs := uptimeMs
    uptimeSeconds := uptimeSeconds
    uptimeHuman := formatUptime uptimeSeconds
    database := st.db }

/-! ## Credential injection and masking in `Database`

From the `Database` constructor:
`this.primaryCouchUrl = primaryUrl.replace('://', '://user:pass@')`
(JS string-pattern `replace`, first occurrence only), and from
`getInstanceInfo`:
`this.primaryCouchUrl.replace(/\/\/[^@]+@/, '//***:***@')`.
The regex finds the leftmost `//`, then `[^@]+` greedily consumes the
non-`@` run that follows (at least one character), which must be closed by
an `@`; the whole match is replaced by `//***:***@`. We model both on
character lists. -/

/-- Splits `l` at its first `'@'`: returns the (possibly empty) `'@'`-free
prefix and the suffix after the `'@'`, or `none` when `l` has no `'@'`. -/
def splitAtAt : List Char → Option (List Char × List Char)
  | [] => none
  | c :: cs =>
    if c = '@' then some ([], cs)
    else
      match splitAtAt cs with
      | some (a, t) => some (c :: a, t)
      | none => none

/-- Attempts the regex `\/\/[^@]+@` at the head of `l`: on a match, returns
the remainder after the matched span. -/
def maskMatchAt (l : List Char) : Option (List Char) :=
  match l with
  | '/' :: '/' :: rest =>
    match splitAtAt rest with
    | some (a, t) => if a.isEmpty then none else some t
    | none => none
  | _ => none

/-- `String.prototype.replace` with the regex `/\/\/[^@]+@/`: replaces the
leftmost match by `//***:***@` and leaves everything else unchanged. -/
def maskCredsList : List Char → List Char
  | [] => []
  | c :: cs =>
    match maskMatchAt (c :: cs) with
    | some t => "//***:***@".data ++ t
    | none => c :: maskCredsList cs

/-- `url.replace('://', '://user:pass@')` from the `Database` constructor:
inserts `user:pass@` after the first occurrence of `://`. -/
def injectCredsList (user pass : List Char) : List Char → List Char
  | [] => []
  | ':' :: '/' :: '/' :: rest => ':' :: '/' :: '/' :: (user ++ ':' :: pass ++ '@' :: rest)
  | c :: cs => c :: injectCredsList user pass cs

/-- `this.primaryCouchUrl` as built by the `Database` constructor from the
configured URL, username and password. -/
def primaryCouchUrl (user pass url : String) : String :=
  ⟨injectCredsList user.data pass.data url.data⟩

/-- The `primaryCouchUrl` field of `Database.getInstanceInfo()`: the stored
credentialed URL passed through the masking `replace`. -/
def instanceInfoPrimaryUrl (user pass url : String) : String :=
  ⟨maskCredsList (primaryCouchUrl user pass url).data⟩

/-! ## OIDC route handlers (`src/routes/auth.js`)

The `User`, `Session` and `jwt` modules are consumed by the routes but
their files are not part of the reviewed source; we model a user by the
data the handlers read (`isUsable()` and `enabled` become fields), a
session by the fields the handlers read and write, and the jwt manager's
token generators and verifiers as abstract functions supplied in an
environment record. The handlers' own control flow is embedded branch by
branch from `src/routes/auth.js`. -/

/-- A user as read by the route handlers: `isUsable()` is abstracted as the
stored field `usable` (its definition lives in the user model, outside the
reviewed source); `enabled` is read to choose the error message. -/
structure User where
  userId : String
  username : String
  email : String
  firstName : String
  lastName : String
  groups : List String
  roles : List String
  enabled : Bool
  emailVerified : Bool
  usable : Bool
  deriving Repr, DecidableEq

/-- An OIDC session document (fields read and written by the handlers;
`by_auth_code` in `_design/sessions` indexes `authorization_code`). -/
structure Session where
  sessionId : String
  sessUserId : String
  sessClientId : String
  sessRedirectUri : String
  sessScopes : List String
  authorizationCode : Option String
  sessNonce : Option String
  expiresAtMs : Nat
  active : Bool
  accessToken : Option String
  refreshTokenStored : Option String
  idTokenStored : Option String
  deriving Repr, DecidableEq

/-- An OAuth client as read by the authorization handler. -/
structure Client where
  clientEnabled : Bool
  redirectUriAllowed : String → Bool
  responseTypeAllowed : String → Bool
  scopeAllowed : List String → Bool

/-- `Session.findByAuthCode`: look up the session holding the given
authorization code (via the `by_auth_code` view, which emits sessions whose
`authorization_code` is set, keyed by the code). -/
def findByAuthCode (store : List Session) (code : String) : Option Session :=
  store.find? (fun s => s.authorizationCode == some code)

/-- Replace the first element satisfying `p` by its image under `f`
(persisting one updated document with `save()`). -/
def updateFirst (p : Session → Bool) (f : Session → Session) : List Session → List Session
  | [] => []
  | s :: rest => if p s then f s :: rest else s :: updateFirst p f rest

/-- `session.setTokens(...)` followed by `session.authorizationCode = null`
and `save()` in the token handler. -/
def setTokensClearCode (acc ref : String) (idTok : Option String) (s : Session) : Session :=
  { s with accessToken := some acc, refreshTokenStored := some ref,
           idTokenStored := idTok, authorizationCode := none }

/-- JS truthiness for the unusable-user guard `!user || !user.isUsable()`. -/
def unusableOpt : Option User → Bool
  | none => true
  | some u => !u.usable

/-! ### `GET /auth` (authorization endpoint) -/

/-- Query parameters of the authorization request after express-validator
(`scope` defaults to `"openid"` at destructuring). -/
structure AuthRequest where
  responseType : Option String
  authClientId : Option String
  authRedirectUri : Option String
  scope : String
  state : Option String
  nonce : Option String
  username : Option String
  password : Option String

/-- Collaborators of the authorization handler: store lookups, password
verification and the jwt manager's generators. -/
structure AuthEnv where
  findClient : String → Option Client
  findUserByUsername : String → Option User
  verifyPassword : User → String → Bool
  genAuthCode : User → String → String → List String → Option String → String
  genAccessToken : User → String → List String → String
  genIdToken : User → String → Option String → String
  newSessionId : String
  nowMs : Nat

/-- Possible responses of the authorization handler. `noResponse` marks the
fall-through after the three response-type branches, unreachable because the
handler has already checked membership in `['code','token','id_token']`. -/
inductive AuthResponse where
  | errorJson (status : Nat) (err : String) (desc : String)
  | loginForm
  | redirectError (err : String) (desc : String)
  | redirectWithCode (code : String) (state : Option String)
  | redirectWithAccessToken (tok : String)
  | redirectWithIdToken (tok : String)
  | noResponse
  deriving Repr, DecidableEq

/-- The authentication tail of the `GET /auth` handler (from the
`Authenticate user` comment onward in `src/routes/auth.js`): user lookup,
the `!user || !user.isUsable()` guard, password check, then the three
response-type flows; the code flow also persists a new session carrying the
authorization code. -/
def authorizeUser (env : AuthEnv) (rt cid ruri : String) (scopes : List String)
    (state nonce : Option String) (uname pw : String) (store : List Session) :
    AuthResponse × List Session :=
  match env.findUserByUsername uname with
  | none => (.redirectError "access_denied" "Invalid credentials", store)
  | some u =>
    if !u.usable then
      (.redirectError "access_denied"
        (if !u.enabled then "Account disabled" else "Account has sync conflicts"), store)
    else if !env.verifyPassword u pw then
      (.redirectError "access_denied" "Invalid credentials", store)
    else if rt = "code" then
      let authCode := env.genAuthCode u cid ruri scopes nonce
      let session : Session :=
        { sessionId := env.newSessionId, sessUserId := u.userId,
          sessClientId := cid, sessRedirectUri := ruri,
          sessScopes := scopes, authorizationCode := some authCode,
          sessNonce := nonce,
          expiresAtMs := env.nowMs + 10 * 60 * 1000, active := true,
          accessToken := none, refreshTokenStored := none,
          idTokenStored := none }
      (.redirectWithCode authCode state, store ++ [session])
    else if rt = "token" then
      (.redirectWithAccessToken (env.genAccessToken u cid scopes), store)
    else if rt = "id_token" then
      if !(scopes.contains "openid") then
        (.redirectError "invalid_scope"
          "openid scope required for id_token response type", store)
      else
        (.redirectWithIdToken (env.genIdToken u cid nonce), store)
    else (.noResponse, store)

/-- The `GET /auth` handler, branch by branch from `src/routes/auth.js`:
parameter presence, client checks, redirect-uri / response-type / scope
checks, the login form when no credentials were submitted, then the
authentication tail `authorizeUser`. -/
def authorize (env : AuthEnv) (req : AuthRequest) (store : List Session) :
    AuthResponse × List Session :=
  match req.responseType, req.authClientId, req.authRedirectUri with
  | some rt, some cid, some ruri =>
    (match env.findClient cid with
     | none => (.errorJson 400 "invalid_client" "Invalid or disabled client", store)
     | some client =>
       if !client.clientEnabled then
         (.errorJson 400 "invalid_client" "Invalid or disabled client", store)
       else if !client.redirectUriAllowed ruri then
         (.errorJson 400 "invalid_request" "Invalid redirect_uri for this client", store)
       else if !client.responseTypeAllowed rt then
         (.errorJson 400 "unsupported_response_type"
           ("Response type " ++ rt ++ " not allowed for this client"), store)
       else
         let scopes := (req.scope.splitOn " ").filter (fun s => s ≠ "")
         if !client.scopeAllowed scopes then
           (.errorJson 400 "invalid_scope" "Requested scope not allowed for this client", store)
         else if !(["code", "token", "id_token"].contains rt) then
           (.errorJson 400 "unsupported_response_type" ("Unsupported response_type: " ++ rt), store)
         else
           match req.username, req.password with
           | some uname, some pw =>
             authorizeUser env rt cid ruri scopes req.state req.nonce uname pw store
           | _, _ => (.loginForm, store))
  | _, _, _ =>
    (.errorJson 400 "invalid_request"
      "Missing required parameters: response_type, client_id, redirect_uri", store)

/-! ### `POST /token` (token endpoint, both grants) -/

/-- Payload of a verified authorization code
(`jwtManager.verifyToken(code, 'refresh')`). -/
structure CodePayload where
  aud : String
  payloadRedirectUri : String
  sub : String
  scope : Option String
  nonce : Option String
  deriving Repr, DecidableEq

/-- Payload of a verified refresh token. -/
structure RefreshPayload where
  aud : String
  sub : String
  typ : String
  deriving Repr, DecidableEq

/-- Body parameters of a token request. -/
structure TokenRequest where
  grantType : Option String
  code : Option String
  tokenRedirectUri : Option String
  tokenClientId : Option String
  refreshTokenParam : Option String

/-- Collaborators of the token handler: jwt verification and generation,
user lookup, and the configured access-token lifetime. -/
structure TokenEnv where
  verifyCodeToken : String → Option CodePayload
  verifyRefreshToken : String → Option RefreshPayload
  findUserById : String → Option User
  genAccessToken : User → String → List String → String
  genRefreshToken : User → String → String
  genIdToken : User → String → Option String → String
  accessTokenExpirySec : Nat

/-- Responses of the token endpoint: an error JSON, or a token response
(the refresh grant's response carries no refresh token). -/
inductive TokenResponse where
  | error (status : Nat) (err : String) (desc : String)
  | success (accessTok : String) (tokenType : String) (expiresIn : Nat)
      (refreshTok : Option String) (idTok : Option String) (scope : String)
  deriving Repr, DecidableEq

/-- The `authorization_code` arm of `handleTokenRequest` in
`src/routes/auth.js`: parameter presence, code verification and
aud/redirect-uri matching, session lookup by code and `active` check, the
unusable-user guard, token generation, and the session update that clears
the used authorization code. -/
def handleAuthCodeGrant (env : TokenEnv) (code redirectUri clientId : Option String)
    (store : List Session) : TokenResponse × List Session :=
  match code, redirectUri, clientId with
  | some c, some ruri, some cid =>
    (match env.verifyCodeToken c with
     | none => (.error 400 "invalid_grant" "Invalid or expired authorization code", store)
     | some p =>
       if p.aud ≠ cid ∨ p.payloadRedirectUri ≠ ruri then
         (.error 400 "invalid_grant" "Authorization code validation failed", store)
       else
         match findByAuthCode store c with
         | none => (.error 400 "invalid_grant" "Authorization code not found", store)
         | some s =>
           if !s.active then
             (.error 400 "invalid_grant" "Authorization code already used", store)
           else
             match env.findUserById p.sub with
             | none => (.error 400 "invalid_grant" "User not found", store)
             | some u =>
               if !u.usable then
                 (.error 400 "invalid_grant"
                   (if !u.enabled then "User disabled" else "User has sync conflicts"), store)
               else
                 let scopes := match p.scope with
                   | some sc => sc.splitOn " "
                   | none => ["openid"]
                 let acc := env.genAccessToken u cid scopes
                 let ref := env.genRefreshToken u cid
                 let idT := if scopes.contains "openid" then
                     some (env.genIdToken u cid p.nonce)
                   else none
                 let store' := updateFirst (fun s => s.authorizationCode == some c)
                   (setTokensClearCode acc ref idT) store
                 (.success acc "bearer" env.accessTokenExpirySec (some ref) idT
                   (String.intercalate " " scopes), store'))
  | _, _, _ =>
    (.error 400 "invalid_request"
      "Missing required parameters for authorization_code grant", store)

/-- The `refresh_token` arm of `handleTokenRequest` in
`src/routes/auth.js`: parameter presence, refresh-token verification and
matching, the unusable-user guard, then a fresh access token. -/
def handleRefreshGrant (env : TokenEnv) (refreshTok clientId : Option String)
    (store : List Session) : TokenResponse × List Session :=
  match refreshTok, clientId with
  | some rt, some cid =>
    (match env.verifyRefreshToken rt with
     | none => (.error 400 "invalid_grant" "Invalid or expired refresh token", store)
     | some p =>
       if p.aud ≠ cid ∨ p.typ ≠ "refresh" then
         (.error 400 "invalid_grant" "Refresh token validation failed", store)
       else
         match env.findUserById p.sub with
         | none => (.error 400 "invalid_grant" "User not found", store)
         | some u =>
           if !u.usable then
             (.error 400 "invalid_grant"
               (if !u.enabled then "User disabled" else "User has sync conflicts"), store)
           else
             (.success (env.genAccessToken u cid ["openid"]) "bearer"
               env.accessTokenExpirySec none none "openid", store))
  | _, _ =>
    (.error 400 "invalid_request" "Missing refresh_token or client_id", store)

/-- `handleTokenRequest` from `src/routes/auth.js`: `grant_type` presence
check, then dispatch to the `authorization_code` or `refresh_token` arm,
else `unsupported_grant_type`. -/
def handleTokenRequest (env : TokenEnv) (req : TokenRequest) (store : List Session) :
    TokenResponse × List Session :=
  match req.grantType with
  | none => (.error 400 "invalid_request" "Missing grant_type parameter", store)
  | some gt =>
    if gt = "authorization_code" then
      handleAuthCodeGrant env req.code req.tokenRedirectUri req.tokenClientId store
    else if gt = "refresh_token" then
      handleRefreshGrant env req.refreshTokenParam req.tokenClientId store
    else
      (.error 400 "unsupported_grant_type" ("Unsupported grant_type: " ++ gt), store)

/-! ### `GET /userinfo` -/

/-- Payload of a verified access token. -/
structure AccessPayload where
  sub : String
  scope : Option String
  deriving Repr, DecidableEq

/-- Collaborators of the userinfo handler. -/
structure UserinfoEnv where
  verifyAccessToken : String → Option AccessPayload
  findUserById : String → Option User

/-- Extracts the bearer token from the `Authorization` header
(`authHeader.startsWith('Bearer ')` then `substring(7)`). -/
def bearerToken : Option String → Option String
  | none => none
  | some h => if h.startsWith "Bearer " then some (h.drop 7) else none

/-- The JSON body of a successful userinfo response; profile and email
fields are present only when the corresponding scope was granted. -/
structure UserInfoBody where
  sub : String
  preferredUsername : Option String
  givenName : Option String
  familyName : Option String
  bodyGroups : Option (List String)
  bodyRoles : Option (List String)
  bodyEmail : Option String
  bodyEmailVerified : Option Bool
  deriving Repr, DecidableEq

/-- Responses of the userinfo endpoint. -/
inductive UserinfoResponse where
  | error (status : Nat) (err : String) (desc : String)
  | info (body : UserInfoBody)
  deriving Repr, DecidableEq

/-- The `GET /userinfo` handler: bearer extraction, access-token
verification, user lookup with the unusable-user guard, then the
scope-gated response body. -/
def userinfoHandler (env : UserinfoEnv) (authHeader : Option String) : UserinfoResponse :=
  match bearerToken authHeader with
  | none => .error 401 "invalid_token" "Missing or invalid authorization header"
  | some tok =>
    match env.verifyAccessToken tok with
    | none => .error 401 "invalid_token" "Invalid or expired access token"
    | some p =>
      match env.findUserById p.sub with
      | none => .error 401 "invalid_token" "User not found"
      | some u =>
        if !u.usable then
          .error 401 "invalid_token"
            (if !u.enabled then "User disabled" else "User has sync conflicts")
        else
          let scopes := match p.scope with
            | some sc => sc.splitOn " "
            | none => []
          .info
            { sub := u.userId
              preferredUsername := if scopes.contains "profile" then some u.username else none
              givenName := if scopes.contains "profile" then some u.firstName else none
              familyName := if scopes.contains "profile" then some u.lastName else none
              bodyGroups := if scopes.contains "profile" then some u.groups else none
              bodyRoles := if scopes.contains "profile" then some u.roles else none
              bodyEmail := if scopes.contains "email" then some u.email else none
              bodyEmailVerified := if scopes.contains "email" then some u.emailVerified else none }

/-- An authorization response that hands out a credential: an authorization
code, an access token, or an id token. -/
def AuthResponse.grantsCredential : AuthResponse → Bool
  | .redirectWithCode _ _ => true
  | .redirectWithAccessToken _ => true
  | .redirectWithIdToken _ => true
  | _ => false

/-- An authorization response that is an error (JSON error or error
redirect). -/
def AuthResponse.isErrorResponse : AuthResponse → Bool
  | .errorJson _ _ _ => true
  | .redirectError _ _ => true
  | _ => false

/-- A token response that is an error (and carries no tokens). -/
def TokenResponse.isError : TokenResponse → Bool
  | .error _ _ _ => true
  | _ => false

/-- A userinfo response that is an error. -/
def UserinfoResponse.isError : UserinfoResponse → Bool
  | .error _ _ _ => true
  | _ => false

/-! ## Conflict classifier, merge strategy and resolution engine

The repository's conflict classifier and resolution engine
(`src/services/conflict-detector.js`, the admin resolve endpoints) are not
part of the reviewed source — only the product documentation and the
specification describe them. The following definitions are therefore
modelled from the specification (§3, §4.4, §4.5) and the claims about them
are settled against these models. -/

/-- Modelled from the spec: a sibling revision's business fields and
provenance (§3, §4.4). The missing source is the conflict
detector/classifier module. -/
structure Revision where
  docType : String
  revUsername : String
  revEmail : String
  revGroups : List String
  revRoles : List String
  redirectUris : List String
  grantTypes : List String
  revScopes : List String
  revEnabled : Bool
  lastModifiedAt : Nat
  lastModifiedBy : String
  deriving Repr, DecidableEq

/-- Conflict kinds (§3). -/
inductive ConflictKind where
  | group_conflict
  | role_conflict
  | profile_conflict
  | client_config_conflict
  | generic_conflict
  deriving Repr, DecidableEq

/-- All revisions agree on the projection `f`. -/
def allSame {α : Type} [DecidableEq α] (f : Revision → α) : List Revision → Bool
  | [] => true
  | r :: rs => rs.all (fun x => f x == f r)

/-- All revisions have document type `t`. -/
def allOfType (t : String) (revs : List Revision) : Bool :=
  revs.all (fun r => r.docType == t)

/-- Modelled from the spec: "All revisions identical except for `groups`"
(§4.4 rule 1) — every business field other than `groups` agrees (provenance
necessarily differs between sibling revisions and is not compared). -/
def identicalExceptGroups (revs : List Revision) : Bool :=
  allSame (fun r => r.docType) revs && allSame (fun r => r.revUsername) revs &&
  allSame (fun r => r.revEmail) revs && allSame (fun r => r.revRoles) revs &&
  allSame (fun r => r.redirectUris) revs && allSame (fun r => r.grantTypes) revs &&
  allSame (fun r => r.revScopes) revs && allSame (fun r => r.revEnabled) revs

/-- Modelled from the spec: "All revisions identical except for `roles`"
(§4.4 rule 2). -/
def identicalExceptRoles (revs : List Revision) : Bool :=
  allSame (fun r => r.docType) revs && allSame (fun r => r.revUsername) revs &&
  allSame (fun r => r.revEmail) revs && allSame (fun r => r.revGroups) revs &&
  allSame (fun r => r.redirectUris) revs && allSame (fun r => r.grantTypes) revs &&
  allSame (fun r => r.revScopes) revs && allSame (fun r => r.revEnabled) revs

/-- Modelled from the spec: the classifier's precedence rules, first match
wins (§4.4): identical-except-groups, identical-except-roles, user docs
differing in username or email, client docs differing in redirect
uris/grant types/scopes, otherwise generic. -/
def classify (revs : List Revision) : ConflictKind :=
  if identicalExceptGroups revs then .group_conflict
  else if identicalExceptRoles revs then .role_conflict
  else if allOfType "user" revs &&
      (!allSame (fun r => r.revUsername) revs || !allSame (fun r => r.revEmail) revs) then
    .profile_conflict
  else if allOfType "client" revs &&
      (!allSame (fun r => r.redirectUris) revs || !allSame (fun r => r.grantTypes) revs ||
       !allSame (fun r => r.revScopes) revs) then
    .client_config_conflict
  else .generic_conflict

/-- Lexicographic comparison of character lists by code point. -/
def strLeList : List Char → List Char → Bool
  | [], _ => true
  | _ :: _, [] => false
  | a :: as, b :: bs =>
    if a.toNat < b.toNat then true
    else if b.toNat < a.toNat then false
    else strLeList as bs

/-- Lexicographic order on strings (by code point). -/
def strLe (a b : String) : Bool :=
  strLeList a.data b.data

/-- Modelled from the spec: the display/tie-break order (§4.4) — `a` comes
before `b` when `a.lastModifiedAt` is later, ties broken by
`lastModifiedBy` lexicographically ascending. -/
def revBefore (a b : Revision) : Bool :=
  (b.lastModifiedAt < a.lastModifiedAt) ||
  (a.lastModifiedAt == b.lastModifiedAt && strLe a.lastModifiedBy b.lastModifiedBy)

/-- Insert a revision into an already tie-break-ordered list. -/
def insertByPriority (x : Revision) : List Revision → List Revision
  | [] => [x]
  | y :: ys => if revBefore x y then x :: y :: ys else y :: insertByPriority x ys

/-- Modelled from the spec: sort a revision list into the tie-break order
(§4.4), by insertion sort. -/
def tieBreakSort : List Revision → List Revision
  | [] => []
  | x :: xs => insertByPriority x (tieBreakSort xs)

/-- Append `x` unless already present (keeps first-seen order). -/
def insertIfAbsent (acc : List String) (x : String) : List String :=
  if x ∈ acc then acc else acc ++ [x]

/-- Deduplicate keeping the first occurrence of each element. -/
def dedupFirstSeen (l : List String) : List String :=
  l.foldl insertIfAbsent []

/-- Modelled from the spec: the `merge-permissions` canonical `groups` —
the deduplicated union of all sibling revisions' groups, in first-seen
order across the tie-break-ordered revision list (§4.5). -/
def mergeGroups (revs : List Revision) : List String :=
  dedupFirstSeen ((tieBreakSort revs).flatMap (fun r => r.revGroups))

/-- Modelled from the spec: the `merge-permissions` canonical `roles`,
likewise (§4.5). -/
def mergeRoles (revs : List Revision) : List String :=
  dedupFirstSeen ((tieBreakSort revs).flatMap (fun r => r.revRoles))

/-! ### Resolution engine state machine (§4.5) -/

/-- Modelled from the spec: a stamped resolution (§3). -/
structure Resolution where
  strategy : String
  resolvingInstance : String
  resolvedAtMs : Nat
  resultingRevisionId : String
  contributingInstances : List String
  deriving Repr, DecidableEq

/-- ConflictRecord status (§3). -/
inductive ConflictStatus where
  | unresolved
  | resolving
  | resolved
  deriving Repr, DecidableEq

/-- Modelled from the spec: a ConflictRecord (§3); `resolution` is present
only in the `resolved` state. -/
structure ConflictRecord where
  documentId : String
  documentType : String
  kind : ConflictKind
  detectedAtMs : Nat
  status : ConflictStatus
  resolution : Option Resolution
  deriving Repr, DecidableEq

/-- Errors surfaced by `resolve` (§4.5, §7). -/
inductive ResolveError where
  | conflictAlreadyResolving
  | writeOrPurgeFailed
  | invalidRecord
  deriving Repr, DecidableEq

/-- The store-visible state threaded through `resolve`: the persisted
ConflictRecord plus counters of canonical-revision writes and
sibling-revision purges performed so far. -/
structure ResolveState where
  record : ConflictRecord
  storeWrites : Nat
  storePurges : Nat
  deriving Repr, DecidableEq

/-- Modelled from the spec: `resolve` (§4.5). On a `resolved` record it is
a no-op that returns the stored resolution; on a `resolving` record it
fails with `ConflictAlreadyResolving`; on an `unresolved` record it applies
the strategy (`apply` computes the stamped resolution), performs exactly
one canonical write and one purge, and marks the record `resolved`; a write
or purge failure rolls the record back to `unresolved`. A `resolved` record
without a stored resolution violates the §3 invariant and is rejected. -/
def resolve (apply : ConflictRecord → Resolution) (writeOk purgeOk : Bool)
    (st : ResolveState) : Except ResolveError (Resolution × ResolveState) :=
  match st.record.status with
  | .resolved =>
    match st.record.resolution with
    | some r => .ok (r, st)
    | none => .error .invalidRecord
  | .resolving => .error .conflictAlreadyResolving
  | .unresolved =>
    if !writeOk then
      .error .writeOrPurgeFailed
    else if !purgeOk then
      .error .writeOrPurgeFailed
    else
      let r := apply st.record
      .ok (r, { record := { st.record with status := .resolved, resolution := some r },
                storeWrites := st.storeWrites + 1,
                storePurges := st.storePurges + 1 })

/-! ## Theorems -/

/-! ### C1: the conflicts view is the sole conflict trigger -/

lemma mem_conflictsViewMap {k : String} {d d' : CouchDoc} :
    (k, d) ∈ conflictsViewMap d' ↔ d'.conflicts.isSome = true ∧ k = d'.docId ∧ d = d' := by
  unfold conflictsViewMap
  cases h : d'.conflicts <;> simp [Prod.ext_iff, and_comm]

/-- C1: the conflict-detection view selects exactly the documents whose
stored `_conflicts` marker is present, and every emitted row is keyed by
that same document's own id — no document is flagged by comparing two
different document ids. -/
theorem conflicts_view_selects_exactly_conflicted (db : List CouchDoc) (d : CouchDoc) :
    ((∃ k, (k, d) ∈ conflictsViewRows db) ↔ d ∈ db ∧ d.conflicts.isSome = true) ∧
    (∀ k, (k, d) ∈ conflictsViewRows db → k = d.docId) := by
  constructor
  · constructor
    · rintro ⟨k, hk⟩
      rw [conflictsViewRows, List.mem_flatMap] at hk
      obtain ⟨d', hd', hmem⟩ := hk
      rw [mem_conflictsViewMap] at hmem
      obtain ⟨hs, -, rfl⟩ := hmem
      exact ⟨hd', hs⟩
    · rintro ⟨hd, hs⟩
      exact ⟨d.docId, by
        rw [conflictsViewRows, List.mem_flatMap]
        exact ⟨d, hd, mem_conflictsViewMap.mpr ⟨hs, rfl, rfl⟩⟩⟩
  · intro k hk
    rw [conflictsViewRows, List.mem_flatMap] at hk
    obtain ⟨d', hd', hmem⟩ := hk
    rw [mem_conflictsViewMap] at hmem
    obtain ⟨-, rfl, rfl⟩ := hmem
    rfl

/-- A conflicted document (has sibling revisions). -/
def wDocC : CouchDoc := ⟨"user:alice", some "dc1", some ["2-abc"], some "t1"⟩

/-- A clean document (no `_conflicts` field). -/
def wDocN : CouchDoc := ⟨"user:bob", some "dc1", none, none⟩

theorem conflicts_view_witness :
    (∃ k, (k, wDocC) ∈ conflictsViewRows [wDocN, wDocC]) ∧
    (conflictsViewRows [wDocN, wDocC] = [(wDocC.docId, wDocC)]) :=
  ⟨(conflicts_view_selects_exactly_conflicted [wDocN, wDocC] wDocC).1.mpr
     ⟨by simp, rfl⟩, rfl⟩

/-! ### C7: the CouchDB wait loop is bounded -/

lemma waitLoop_ok_le (probe : Nat → Bool) (fuel : Nat) :
    ∀ retries n, (waitLoop probe retries fuel).1 = .ok n → n ≤ retries + fuel := by
  induction fuel with
  | zero => intro retries n h; simp [waitLoop] at h
  | succ f ih =>
    intro retries n h
    rw [waitLoop] at h
    by_cases hp : probe retries
    · simp [hp] at h
      omega
    · simp [hp] at h
      have := ih (retries + 1) n h
      omega

lemma waitLoop_all_fail (probe : Nat → Bool) (fuel : Nat) :
    ∀ retries, (∀ i, retries ≤ i → i < retries + fuel → probe i = false) →
      (waitLoop probe retries fuel).1 = .error couchTimeoutMsg := by
  induction fuel with
  | zero => intro retries _; rfl
  | succ f ih =>
    intro retries h
    rw [waitLoop]
    have hp : probe retries = false := h retries le_rfl (by omega)
    simp [hp]
    exact ih (retries + 1) (fun i h1 h2 => h i (by omega) (by omega))

lemma waitLoop_delays (probe : Nat → Bool) (fuel : Nat) :
    ∀ retries, ∀ d ∈ (waitLoop probe retries fuel).2, d = 2000 := by
  induction fuel with
  | zero => intro retries d hd; simp [waitLoop] at hd
  | succ f ih =>
    intro retries d hd
    rw [waitLoop] at hd
    by_cases hp : probe retries
    · simp [hp] at hd
    · simp [hp] at hd
      rcases hd with hd | hd
      · exact hd
      · exact ih (retries + 1) d hd

/-- C7: `waitForCouchDB` performs at most 30 connection attempts, each
failed attempt is followed by the same fixed 2000 ms delay, and if every
one of the 30 attempts fails it terminates by raising the timeout error
rather than retrying forever. -/
theorem waitForCouchDB_bounded (probe : Nat → Bool) :
    (∀ n, (waitForCouchDB probe).1 = .ok n → n ≤ 30) ∧
    ((∀ i, i < 30 → probe i = false) →
      (waitForCouchDB probe).1 = .error couchTimeoutMsg) ∧
    (∀ d ∈ (waitForCouchDB probe).2, d = 2000) := by
  refine ⟨fun n h => ?_, fun h => ?_, fun d hd => ?_⟩
  · have := waitLoop_ok_le probe 30 0 n h
    omega
  · exact waitLoop_all_fail probe 30 0 (fun i _ h2 => h i (by omega))
  · exact waitLoop_delays probe 30 0 d hd

theorem waitForCouchDB_bounded_witness :
    (waitForCouchDB (fun _ => false)).1 = .error couchTimeoutMsg ∧ (1 : Nat) ≤ 30 :=
  ⟨(waitForCouchDB_bounded (fun _ => false)).2.1 (fun _ _ => rfl),
   (waitForCouchDB_bounded (fun _ => true)).1 1 rfl⟩

/-! ### C6: startup failures are process-fatal -/

/-- C6 counterexample: with the document store unreachable on every one of
the bounded startup probes, initialization fails and `startOIDCServer`'s
catch block terminates the process with exit code 1 — contradicting the
claim that no failure in this subsystem ever makes the process exit. -/
theorem startup_store_unreachable_exits :
    startOIDCServer (databaseInitialize (fun _ => false) true) = .exitedWith 1 ∧
    startOIDCServer (databaseInitialize (fun _ => false) true) ≠ .running := by
  constructor
  · rfl
  · decide

/-- C6 amended: failures are process-fatal exactly at startup — the process
is left running if and only if initialization (CouchDB wait, database
access, structure setup, sync-monitor start) succeeded, and any
initialization error terminates the process with exit code 1. -/
theorem startup_fatal_iff_init_fails (r : Except String Unit) :
    (startOIDCServer r = .running ↔ ∃ u, r = .ok u) ∧
    (∀ e, r = .error e → startOIDCServer r = .exitedWith 1) := by
  cases r <;> simp [startOIDCServer]

theorem startup_fatal_witness :
    startOIDCServer (.error couchTimeoutMsg) = .exitedWith 1 :=
  (startup_fatal_iff_init_fails (.error couchTimeoutMsg)).2 couchTimeoutMsg rfl

/-! ### C5: the health payload ignores the sync monitor -/

/-- A connected local database status. -/
def wDb : DbStatus := ⟨true, some "zombie", some 0, none⟩

/-- C5 counterexample: two server states that agree on the local database
status and the clocks but have opposite sync-monitor aggregate replication
states produce identical `GET /health` payloads — the handler reads only
`database.testConnection()` and the uptime, so the aggregated
ReplicationLink state is not an input of the health response. -/
theorem health_ignores_monitor_state :
    healthHandler ⟨wDb, .active, 5000, 1000⟩ = healthHandler ⟨wDb, .unreachable, 5000, 1000⟩ ∧
    ReplAggregate.active ≠ ReplAggregate.unreachable := by
  constructor
  · rfl
  · decide

/-- C5 amended: the `GET /health` payload is fully determined by the local
database connectivity result and the uptime clocks — its `status` field is
`ok` exactly when the local database is connected — and it does not reflect
the Sync Monitor's aggregate replication state. -/
theorem health_depends_only_on_db_and_uptime (s1 s2 : ServerState)
    (hdb : s1.db = s2.db) (hnow : s1.nowMs = s2.nowMs) (hstart : s1.startMs = s2.startMs) :
    healthHandler s1 = healthHandler s2 ∧
    (healthHandler s1).status = (if s1.db.connected then "ok" else "degraded") := by
  constructor
  · unfold healthHandler
    rw [hdb, hnow, hstart]
  · rfl

theorem health_depends_witness :
    healthHandler ⟨wDb, .active, 5000, 1000⟩ = healthHandler ⟨wDb, .degraded, 5000, 1000⟩ :=
  (health_depends_only_on_db_and_uptime ⟨wDb, .active, 5000, 1000⟩
    ⟨wDb, .degraded, 5000, 1000⟩ rfl rfl rfl).1

/-! ### C10: credential masking in `getInstanceInfo` -/

/-- C10 counterexample: when the configured password contains an `@` (here
`p@ss`), the mask regex `\/\/[^@]+@` stops at the first `@`, so the
`primaryCouchUrl` reported by `getInstanceInfo` still contains password
text after the mask, and the output differs between two such passwords —
it is not independent of the secret credential values. -/
theorem mask_leaks_password_with_at :
    instanceInfoPrimaryUrl "u" "p@ss" "http://localhost:5984"
        = "http://***:***@ss@localhost:5984" ∧
    instanceInfoPrimaryUrl "u" "p@ss" "http://localhost:5984"
        ≠ instanceInfoPrimaryUrl "u" "p@tt" "http://localhost:5984" := by
  constructor
  · rfl
  · decide

lemma splitAtAt_append (a t : List Char) (h : '@' ∉ a) :
    splitAtAt (a ++ '@' :: t) = some (a, t) := by
  induction a with
  | nil => rfl
  | cons c cs ih =>
    have hc : c ≠ '@' := fun hc => h (hc ▸ List.mem_cons_self c cs)
    have hcs : '@' ∉ cs := fun hm => h (List.mem_cons_of_mem c hm)
    simp [splitAtAt, hc, ih hcs]

lemma injectCredsList_cons_ne (u p : List Char) (c : Char) (t : List Char) (hc : c ≠ ':') :
    injectCredsList u p (c :: t) = c :: injectCredsList u p t := by
  rw [injectCredsList.eq_def]
  cases t with
  | nil => simp [hc]
  | cons c2 t2 =>
    cases t2 with
    | nil => simp [hc]
    | cons c3 t3 => simp [hc]

lemma injectCredsList_skip (u p : List Char) (s : List Char) (hs : ':' ∉ s)
    (rest : List Char) :
    injectCredsList u p (s ++ ':' :: '/' :: '/' :: rest)
      = s ++ ':' :: '/' :: '/' :: (u ++ ':' :: p ++ '@' :: rest) := by
  induction s with
  | nil => rfl
  | cons c cs ih =>
    have hc : c ≠ ':' := fun hc => hs (hc ▸ List.mem_cons_self c cs)
    have hcs : ':' ∉ cs := fun hm => hs (List.mem_cons_of_mem c hm)
    rw [List.cons_append, injectCredsList_cons_ne u p c _ hc, ih hcs]
    rfl

lemma maskMatchAt_ne_slash (c : Char) (t : List Char) (hc : c ≠ '/') :
    maskMatchAt (c :: t) = none := by
  rw [maskMatchAt.eq_def]
  cases t with
  | nil => simp [hc]
  | cons c2 t2 => simp [hc]

lemma maskCredsList_skip (s l : List Char) (hs : '/' ∉ s) :
    maskCredsList (s ++ l) = s ++ maskCredsList l := by
  induction s with
  | nil => rfl
  | cons c cs ih =>
    have hc : c ≠ '/' := fun hc => hs (hc ▸ List.mem_cons_self c cs)
    have hcs : '/' ∉ cs := fun hm => hs (List.mem_cons_of_mem c hm)
    rw [List.cons_append, maskCredsList, maskMatchAt_ne_slash c _ hc]
    simp [ih hcs]

lemma maskCredsList_at_creds (u p host : List Char) (hu : '@' ∉ u) (hp : '@' ∉ p) :
    maskCredsList (':' :: '/' :: '/' :: (u ++ ':' :: p ++ '@' :: host))
      = ':' :: ("//***:***@".data ++ host) := by
  have hsplit : splitAtAt ((u ++ ':' :: p) ++ '@' :: host) = some (u ++ ':' :: p, host) := by
    apply splitAtAt_append
    intro hm
    rcases List.mem_append.mp hm with hm | hm
    · exact hu hm
    · rcases List.mem_cons.mp hm with hm | hm
      · exact absurd hm.symm (by decide)
      · exact hp hm
  have harr : u ++ ':' :: p ++ '@' :: host = (u ++ ':' :: p) ++ '@' :: host := by
    simp
  rw [maskCredsList, maskMatchAt_ne_slash ':' _ (by decide)]
  rw [maskCredsList]
  have hmm : maskMatchAt ('/' :: '/' :: (u ++ ':' :: p ++ '@' :: host)) = some host := by
    rw [maskMatchAt, harr, hsplit]
    simp
  rw [hmm]

/-- C10 amended: `getInstanceInfo` masks the embedded credentials — the
`primaryCouchUrl` it reports has the userinfo portion replaced by
`***:***`, independently of the credential values — provided the
configured username and password contain no `@` character; a credential
containing `@` defeats the mask (see the counterexample). -/
theorem instanceInfo_masks_credentials (user pass scheme host : String)
    (hu : '@' ∉ user.data) (hp : '@' ∉ pass.data)
    (hs1 : ':' ∉ scheme.data) (hs2 : '/' ∉ scheme.data) :
    instanceInfoPrimaryUrl user pass (scheme ++ "://" ++ host)
      = scheme ++ "://***:***@" ++ host := by
  have hurl : (scheme ++ "://" ++ host).data
      = scheme.data ++ ':' :: '/' :: '/' :: host.data := by
    show (scheme.data ++ "://".data) ++ host.data = _
    rw [List.append_assoc]
    rfl
  have hinj : injectCredsList user.data pass.data (scheme ++ "://" ++ host).data
      = scheme.data ++ ':' :: '/' :: '/' :: (user.data ++ ':' :: pass.data ++ '@' :: host.data) := by
    rw [hurl, injectCredsList_skip user.data pass.data scheme.data hs1 host.data]
  have hmask : maskCredsList (scheme.data ++ ':' :: '/' :: '/' ::
        (user.data ++ ':' :: pass.data ++ '@' :: host.data))
      = scheme.data ++ ':' :: ("//***:***@".data ++ host.data) := by
    have := maskCredsList_skip scheme.data
      (':' :: '/' :: '/' :: (user.data ++ ':' :: pass.data ++ '@' :: host.data)) hs2
    rw [this, maskCredsList_at_creds _ _ _ hu hp]
  apply String.ext
  show maskCredsList (injectCredsList user.data pass.data
    (scheme ++ "://" ++ host).data) = (scheme ++ "://***:***@" ++ host).data
  rw [hinj, hmask]
  show _ = (scheme.data ++ "://***:***@".data) ++ host.data
  rw [List.append_assoc]
  rfl

theorem instanceInfo_masks_witness :
    instanceInfoPrimaryUrl "zombieauth" "secret123" ("http" ++ "://" ++ "localhost:5984")
      = "http" ++ "://***:***@" ++ "localhost:5984" :=
  instanceInfo_masks_credentials "zombieauth" "secret123" "http" "localhost:5984"
    (by decide) (by decide) (by decide) (by decide)

/-! ### C3: merge-permissions is a deduplicated union -/

lemma mem_insertByPriority (x a : Revision) (l : List Revision) :
    a ∈ insertByPriority x l ↔ a = x ∨ a ∈ l := by
  induction l with
  | nil => simp [insertByPriority]
  | cons y ys ih =>
    rw [insertByPriority]
    by_cases h : revBefore x y
    · simp [h]
    · simp [h, ih]
      tauto

lemma mem_tieBreakSort (a : Revision) (l : List Revision) :
    a ∈ tieBreakSort l ↔ a ∈ l := by
  induction l with
  | nil => simp [tieBreakSort]
  | cons x xs ih =>
    rw [tieBreakSort, mem_insertByPriority]
    simp [ih]

lemma mem_foldl_insertIfAbsent (l : List String) :
    ∀ acc x, x ∈ l.foldl insertIfAbsent acc ↔ x ∈ acc ∨ x ∈ l := by
  induction l with
  | nil => simp
  | cons a as ih =>
    intro acc x
    rw [List.foldl_cons, ih]
    unfold insertIfAbsent
    by_cases h : a ∈ acc
    · have hxa : x = a → x ∈ acc := fun he => he ▸ h
      simp [h]
      tauto
    · simp [h]
      tauto

lemma nodup_foldl_insertIfAbsent (l : List String) :
    ∀ acc, acc.Nodup → (l.foldl insertIfAbsent acc).Nodup := by
  induction l with
  | nil => intro acc h; exact h
  | cons a as ih =>
    intro acc h
    rw [List.foldl_cons]
    apply ih
    unfold insertIfAbsent
    by_cases ha : a ∈ acc
    · simp [ha, h]
    · simp [ha, List.nodup_append, h]

/-- A user revision with groups `a, b`, modified later than its sibling. -/
def wRevA : Revision :=
  { docType := "user", revUsername := "alice", revEmail := "alice@example.com",
    revGroups := ["a", "b"], revRoles := ["user"], redirectUris := [],
    grantTypes := [], revScopes := [], revEnabled := true,
    lastModifiedAt := 2, lastModifiedBy := "dc1" }

/-- A sibling revision of `wRevA` with groups `b, c`, modified earlier. -/
def wRevB : Revision :=
  { wRevA with revGroups := ["b", "c"], lastModifiedAt := 1, lastModifiedBy := "dc2" }

/-- C3: the merge-permissions canonical groups are exactly the deduplicated
union of the sibling revisions' groups — duplicate-free, containing a group
iff some revision carries it — and on revisions with groups `{a,b}` and
`{b,c}` (the later-modified first) the merge yields `[a, b, c]` in
first-seen order. -/
theorem mergeGroups_dedup_union :
    (∀ revs : List Revision, (mergeGroups revs).Nodup ∧
      ∀ x, x ∈ mergeGroups revs ↔ ∃ r ∈ revs, x ∈ r.revGroups) ∧
    mergeGroups [wRevA, wRevB] = ["a", "b", "c"] := by
  constructor
  · intro revs
    constructor
    · exact nodup_foldl_insertIfAbsent _ [] List.nodup_nil
    · intro x
      unfold mergeGroups dedupFirstSeen
      rw [mem_foldl_insertIfAbsent]
      simp [List.mem_flatMap, mem_tieBreakSort]
  · decide

/-! ### C4: groups+username divergence classifies as profile_conflict -/

/-- A sibling of `wRevA` differing in both `groups` and `username`. -/
def wRevC : Revision :=
  { wRevA with
    revUsername := "alice2"
    revGroups := ["c"]
    lastModifiedAt := 1
    lastModifiedBy := "dc2" }

/-- C4 counterexample: a user revision set differing in both `groups` and
`username` does not fall through to `generic_conflict` — rule 3 of the §4.4
precedence (user docs differing in username or email) matches first, so
`classify` returns `profile_conflict`. -/
theorem classify_both_diff_cex :
    allSame (fun r => r.revGroups) [wRevA, wRevC] = false ∧
    allSame (fun r => r.revUsername) [wRevA, wRevC] = false ∧
    allOfType "user" [wRevA, wRevC] = true ∧
    classify [wRevA, wRevC] = .profile_conflict ∧
    ConflictKind.profile_conflict ≠ ConflictKind.generic_conflict := by
  refine ⟨by decide, by decide, by decide, by decide, by decide⟩

/-- C4 amended: for every revision set of user documents in which both
`groups` and `username` differ across revisions, `classify` returns
`profile_conflict`: rule 1 fails because the username also differs, rule 2
fails because the groups differ, and rule 3 (user document differing in
username or email) then matches. -/
theorem classify_both_diff_profile (revs : List Revision)
    (huser : allOfType "user" revs = true)
    (hg : allSame (fun r => r.revGroups) revs = false)
    (hu : allSame (fun r => r.revUsername) revs = false) :
    classify revs = .profile_conflict := by
  have h1 : identicalExceptGroups revs = false := by
    unfold identicalExceptGroups
    simp [hu]
  have h2 : identicalExceptRoles revs = false := by
    unfold identicalExceptRoles
    simp [hg]
  unfold classify
  rw [h1, h2, huser, hu]
  simp

theorem classify_both_diff_witness :
    classify [wRevA, wRevC] = .profile_conflict :=
  classify_both_diff_profile [wRevA, wRevC] (by decide) (by decide) (by decide)

/-! ### C2: resolution is idempotent -/

/-- C2: resolving is idempotent — `resolve` on an already-`resolved`
record returns the stored resolution and leaves the state (record and
write/purge counters) untouched; and starting from an `unresolved` record,
a successful `resolve` followed by an identical second call yields the same
resolution both times with exactly one store write and one purge in
total. -/
theorem resolve_idempotent_noop (apply : ConflictRecord → Resolution)
    (writeOk purgeOk : Bool) (st : ResolveState) :
    (∀ r, st.record.status = .resolved → st.record.resolution = some r →
      resolve apply writeOk purgeOk st = .ok (r, st)) ∧
    (∀ r1 st1, st.record.status = .unresolved →
      st.storeWrites = 0 → st.storePurges = 0 →
      resolve apply true true st = .ok (r1, st1) →
      resolve apply true true st1 = .ok (r1, st1) ∧
        st1.storeWrites = 1 ∧ st1.storePurges = 1) := by
  constructor
  · intro r hs hr
    unfold resolve
    rw [hs, hr]
  · intro r1 st1 hs hw hp h1
    unfold resolve at h1
    rw [hs] at h1
    simp at h1
    obtain ⟨hr1, hst1⟩ := h1
    subst hr1
    subst hst1
    refine ⟨rfl, by simp [hw], by simp [hp]⟩

/-- A concrete stamped resolution. -/
def wResolution : Resolution := ⟨"choose-winner", "dc1", 42, "3-abc", ["dc1", "dc2"]⟩

/-- A ConflictRecord already in the `resolved` state. -/
def wRecordResolved : ConflictRecord :=
  ⟨"user:alice", "user", .group_conflict, 40, .resolved, some wResolution⟩

/-- An open (unresolved) ConflictRecord. -/
def wRecordOpen : ConflictRecord :=
  ⟨"user:alice", "user", .group_conflict, 40, .unresolved, none⟩

/-- The strategy application used by the witness. -/
def wApply : ConflictRecord → Resolution := fun _ => wResolution

/-- The state after a successful resolution of `wRecordOpen`. -/
def wStateResolved : ResolveState :=
  ⟨{ wRecordOpen with status := .resolved, resolution := some wResolution }, 1, 1⟩

theorem resolve_idempotent_witness :
    resolve wApply true true ⟨wRecordResolved, 1, 1⟩
        = .ok (wResolution, ⟨wRecordResolved, 1, 1⟩) ∧
    (resolve wApply true true wStateResolved = .ok (wResolution, wStateResolved) ∧
      wStateResolved.storeWrites = 1 ∧ wStateResolved.storePurges = 1) :=
  ⟨(resolve_idempotent_noop wApply true true ⟨wRecordResolved, 1, 1⟩).1 wResolution rfl rfl,
   (resolve_idempotent_noop wApply true true ⟨wRecordOpen, 0, 0⟩).2 wResolution
     wStateResolved rfl rfl rfl rfl⟩

/-! ### C8: unusable users are never served -/

lemma authorizeUser_unusable (env : AuthEnv) (rt cid ruri : String)
    (scopes : List String) (state nonce : Option String) (uname pw : String)
    (store : List Session)
    (h : ∀ s, unusableOpt (env.findUserByUsername s) = true) :
    (authorizeUser env rt cid ruri scopes state nonce uname pw store).1.grantsCredential
        = false ∧
    (authorizeUser env rt cid ruri scopes state nonce uname pw store).1.isErrorResponse
        = true := by
  simp only [authorizeUser]
  split
  · exact ⟨rfl, rfl⟩
  · next u hfu =>
    split
    · exact ⟨rfl, rfl⟩
    · next husable =>
      exfalso
      have hu := h uname
      rw [hfu] at hu
      simp [unusableOpt] at hu
      simp [hu] at husable

lemma authorize_unusable (env : AuthEnv) (req : AuthRequest) (store : List Session)
    (h : ∀ s, unusableOpt (env.findUserByUsername s) = true) :
    (authorize env req store).1.grantsCredential = false ∧
    (req.username.isSome = true → req.password.isSome = true →
      (authorize env req store).1.isErrorResponse = true) := by
  obtain ⟨rt', cid', ruri', scope, state, nonce, un', pw'⟩ := req
  cases rt' with
  | none => exact ⟨rfl, fun _ _ => rfl⟩
  | some rt =>
  cases cid' with
  | none => exact ⟨rfl, fun _ _ => rfl⟩
  | some cid =>
  cases ruri' with
  | none => exact ⟨rfl, fun _ _ => rfl⟩
  | some ruri =>
  cases un' with
  | none =>
    refine ⟨?_, fun hun _ => by simp at hun⟩
    simp only [authorize]
    repeat' split
    all_goals rfl
  | some un =>
  cases pw' with
  | none =>
    refine ⟨?_, fun _ hpw => by simp at hpw⟩
    simp only [authorize]
    repeat' split
    all_goals rfl
  | some pw =>
  simp only [authorize]
  split
  · exact ⟨rfl, fun _ _ => rfl⟩
  · split
    · exact ⟨rfl, fun _ _ => rfl⟩
    · split
      · exact ⟨rfl, fun _ _ => rfl⟩
      · split
        · exact ⟨rfl, fun _ _ => rfl⟩
        · split
          · exact ⟨rfl, fun _ _ => rfl⟩
          · split
            · exact ⟨rfl, fun _ _ => rfl⟩
            · exact ⟨(authorizeUser_unusable env rt cid ruri _ state nonce un pw store h).1,
                fun _ _ => (authorizeUser_unusable env rt cid ruri _ state nonce un pw store h).2⟩

lemma authCodeGrant_error_unusable (env : TokenEnv) (code ruri cid : Option String)
    (store : List Session)
    (h : ∀ s, unusableOpt (env.findUserById s) = true) :
    (handleAuthCodeGrant env code ruri cid store).1.isError = true := by
  simp only [handleAuthCodeGrant]
  split
  · split
    · rfl
    · next p hv =>
      split
      · rfl
      · split
        · rfl
        · next s hf =>
          split
          · rfl
          · split
            · rfl
            · next u hfu =>
              split
              · rfl
              · next husable =>
                exfalso
                have hu := h p.sub
                rw [hfu] at hu
                simp [unusableOpt] at hu
                simp [hu] at husable
  · rfl

lemma refreshGrant_error_unusable (env : TokenEnv) (rtk cid : Option String)
    (store : List Session)
    (h : ∀ s, unusableOpt (env.findUserById s) = true) :
    (handleRefreshGrant env rtk cid store).1.isError = true := by
  simp only [handleRefreshGrant]
  split
  · split
    · rfl
    · next p hv =>
      split
      · rfl
      · split
        · rfl
        · next u hfu =>
          split
          · rfl
          · next husable =>
            exfalso
            have hu := h p.sub
            rw [hfu] at hu
            simp [unusableOpt] at hu
            simp [hu] at husable
  · rfl

lemma token_error_unusable (env : TokenEnv) (req : TokenRequest) (store : List Session)
    (h : ∀ s, unusableOpt (env.findUserById s) = true) :
    (handleTokenRequest env req store).1.isError = true := by
  simp only [handleTokenRequest]
  split
  · rfl
  · split
    · exact authCodeGrant_error_unusable env _ _ _ store h
    · split
      · exact refreshGrant_error_unusable env _ _ store h
      · rfl

lemma userinfo_error_unusable (env : UserinfoEnv) (hdr : Option String)
    (h : ∀ s, unusableOpt (env.findUserById s) = true) :
    (userinfoHandler env hdr).isError = true := by
  simp only [userinfoHandler]
  split
  · rfl
  · next tok hb =>
    split
    · rfl
    · next p hv =>
      split
      · rfl
      · next u hfu =>
        split
        · rfl
        · next husable =>
          exfalso
          have hu := h p.sub
          rw [hfu] at hu
          simp [unusableOpt] at hu
          simp [hu] at husable

/-- C8: no token-issuing or user-info operation succeeds for a non-usable
user. Whenever every user lookup resolves to a missing, disabled or
conflicted (not `isUsable`) user: the authorization endpoint hands out no
code and no token and (when credentials were submitted) answers with an
error; the token endpoint answers every request — both grants — with an
error response carrying no tokens; and the userinfo endpoint answers with
an error. -/
theorem unusable_user_never_served
    (envA : AuthEnv) (reqA : AuthRequest) (storeA : List Session)
    (envT : TokenEnv) (reqT : TokenRequest) (storeT : List Session)
    (envU : UserinfoEnv) (hdr : Option String)
    (hA : ∀ s, unusableOpt (envA.findUserByUsername s) = true)
    (hT : ∀ s, unusableOpt (envT.findUserById s) = true)
    (hU : ∀ s, unusableOpt (envU.findUserById s) = true) :
    (authorize envA reqA storeA).1.grantsCredential = false ∧
    (reqA.username.isSome = true → reqA.password.isSome = true →
      (authorize envA reqA storeA).1.isErrorResponse = true) ∧
    (handleTokenRequest envT reqT storeT).1.isError = true ∧
    (userinfoHandler envU hdr).isError = true :=
  ⟨(authorize_unusable envA reqA storeA hA).1,
   (authorize_unusable envA reqA storeA hA).2,
   token_error_unusable envT reqT storeT hT,
   userinfo_error_unusable envU hdr hU⟩

/-- A disabled (hence non-usable) user. -/
def wBadUser : User :=
  ⟨"u1", "alice", "alice@example.com", "A", "L", ["g"], ["r"], false, true, false⟩

/-- A permissive OAuth client. -/
def wClient : Client := ⟨true, fun _ => true, fun _ => true, fun _ => true⟩

/-- Authorization environment resolving every username to the non-usable
user. -/
def wEnvA : AuthEnv :=
  { findClient := fun _ => some wClient
    findUserByUsername := fun _ => some wBadUser
    verifyPassword := fun _ _ => true
    genAuthCode := fun _ _ _ _ _ => "code1"
    genAccessToken := fun _ _ _ => "acc1"
    genIdToken := fun _ _ _ => "id1"
    newSessionId := "s1"
    nowMs := 0 }

/-- A fully populated authorization request with credentials. -/
def wReqA : AuthRequest :=
  ⟨some "code", some "c1", some "http://cb", "openid", none, none, some "alice", some "pw"⟩

/-- The payload carried by the witness authorization code. -/
def wCodePayload : CodePayload := ⟨"c1", "http://cb", "u1", some "openid", none⟩

/-- Token environment resolving every user id to the non-usable user. -/
def wEnvT : TokenEnv :=
  { verifyCodeToken := fun _ => some wCodePayload
    verifyRefreshToken := fun _ => none
    findUserById := fun _ => some wBadUser
    genAccessToken := fun _ _ _ => "acc1"
    genRefreshToken := fun _ _ => "ref1"
    genIdToken := fun _ _ _ => "id1"
    accessTokenExpirySec := 900 }

/-- A well-formed authorization-code token request. -/
def wReqT : TokenRequest :=
  ⟨some "authorization_code", some "codetok", some "http://cb", some "c1", none⟩

/-- A session backing the witness authorization code. -/
def wSessWithCode : Session :=
  ⟨"s1", "u1", "c1", "http://cb", ["openid"], some "codetok", none, 0, true,
   none, none, none⟩

/-- Userinfo environment resolving every user id to the non-usable user. -/
def wEnvU : UserinfoEnv := ⟨fun _ => some ⟨"u1", some "openid profile"⟩, fun _ => some wBadUser⟩

theorem unusable_user_witness :
    (authorize wEnvA wReqA []).1.grantsCredential = false ∧
    (authorize wEnvA wReqA []).1.isErrorResponse = true ∧
    (handleTokenRequest wEnvT wReqT [wSessWithCode]).1.isError = true ∧
    (userinfoHandler wEnvU (some "Bearer tok")).isError = true :=
  ⟨(unusable_user_never_served wEnvA wReqA [] wEnvT wReqT [wSessWithCode] wEnvU
      (some "Bearer tok") (fun _ => rfl) (fun _ => rfl) (fun _ => rfl)).1,
   (unusable_user_never_served wEnvA wReqA [] wEnvT wReqT [wSessWithCode] wEnvU
      (some "Bearer tok") (fun _ => rfl) (fun _ => rfl) (fun _ => rfl)).2.1 rfl rfl,
   (unusable_user_never_served wEnvA wReqA [] wEnvT wReqT [wSessWithCode] wEnvU
      (some "Bearer tok") (fun _ => rfl) (fun _ => rfl) (fun _ => rfl)).2.2.1,
   (unusable_user_never_served wEnvA wReqA [] wEnvT wReqT [wSessWithCode] wEnvU
      (some "Bearer tok") (fun _ => rfl) (fun _ => rfl) (fun _ => rfl)).2.2.2⟩

/-! ### C9: an authorization code is exchangeable at most once -/

lemma find?_updateFirst_none (p : Session → Bool) (f : Session → Session)
    (store : List Session) (hf : ∀ x, p (f x) = false)
    (huniq : store.countP p ≤ 1) :
    (updateFirst p f store).find? p = none := by
  induction store with
  | nil => rfl
  | cons s rest ih =>
    rw [List.countP_cons] at huniq
    by_cases hp : p s
    · have h0 : rest.countP p = 0 := by
        rw [if_pos hp] at huniq
        omega
      rw [updateFirst, if_pos hp,
        List.find?_cons_of_neg _ (by simp [hf s])]
      exact List.find?_eq_none.mpr (List.countP_eq_zero.mp h0)
    · rw [updateFirst, if_neg hp, List.find?_cons_of_neg _ (by simp [hp])]
      exact ih (by rw [if_neg hp] at huniq; omega)

/-- C9: an authorization code is exchangeable at most once. If a token
request for grant `authorization_code` presenting code `c` succeeds (the
response is not an error, so tokens were issued), the backing session's
`authorizationCode` is cleared in the persisted store; provided the store
held at most one session for that code, replaying the identical request
against the updated store fails with `invalid_grant` (code not found),
issues no tokens, and leaves the store unchanged. -/
theorem auth_code_single_use (env : TokenEnv) (req : TokenRequest)
    (store : List Session) (c : String)
    (hgrant : req.grantType = some "authorization_code")
    (hcode : req.code = some c)
    (hsucc : (handleTokenRequest env req store).1.isError = false)
    (huniq : store.countP (fun s => s.authorizationCode == some c) ≤ 1) :
    handleTokenRequest env req (handleTokenRequest env req store).2
      = (.error 400 "invalid_grant" "Authorization code not found",
         (handleTokenRequest env req store).2) := by
  obtain ⟨gt', code', ruri', cid', rtk'⟩ := req
  replace hgrant : gt' = some "authorization_code" := hgrant
  replace hcode : code' = some c := hcode
  subst hgrant
  subst hcode
  cases ruri' with
  | none =>
    simp [handleTokenRequest, handleAuthCodeGrant, TokenResponse.isError] at hsucc
  | some ruri =>
  cases cid' with
  | none =>
    simp [handleTokenRequest, handleAuthCodeGrant, TokenResponse.isError] at hsucc
  | some cid =>
  simp only [handleTokenRequest, handleAuthCodeGrant, eq_self_iff_true, if_true] at hsucc ⊢
  cases hv : env.verifyCodeToken c with
  | none => simp [hv, TokenResponse.isError] at hsucc
  | some p =>
  simp only [hv] at hsucc
  by_cases hok : p.aud ≠ cid ∨ p.payloadRedirectUri ≠ ruri
  · rw [if_pos hok] at hsucc
    simp [TokenResponse.isError] at hsucc
  · rw [if_neg hok] at hsucc
    cases hfind : findByAuthCode store c with
    | none => simp [hfind, TokenResponse.isError] at hsucc
    | some s =>
    simp only [hfind] at hsucc
    cases hact : s.active with
    | false => simp [hact, TokenResponse.isError] at hsucc
    | true =>
    simp only [hact, Bool.not_true, Bool.false_eq_true, if_false] at hsucc
    cases hfu : env.findUserById p.sub with
    | none => simp [hfu, TokenResponse.isError] at hsucc
    | some u =>
    simp only [hfu] at hsucc
    cases husable : u.usable with
    | false => simp [husable, TokenResponse.isError] at hsucc
    | true =>
    simp only [hv, hfind, hact, hfu, husable, eq_false hok, if_false, if_true,
      Bool.not_true, Bool.false_eq_true, findByAuthCode]
    rw [find?_updateFirst_none]
    · intro x
      simp [setTokensClearCode]
    · exact huniq

def wGoodUser : User :=
  ⟨"u1", "alice", "alice@example.com", "A", "L", ["g"], ["r"], true, true, true⟩

/-- Token environment for the single-use witness: the code verifies to the
witness payload and the user is usable. -/
def wEnvT2 : TokenEnv :=
  { verifyCodeToken := fun t => if t = "codetok" then some wCodePayload else none
    verifyRefreshToken := fun _ => none
    findUserById := fun i => if i = "u1" then some wGoodUser else none
    genAccessToken := fun _ _ _ => "acc1"
    genRefreshToken := fun _ _ => "ref1"
    genIdToken := fun _ _ _ => "id1"
    accessTokenExpirySec := 900 }

theorem auth_code_single_use_witness :
    handleTokenRequest wEnvT2 wReqT (handleTokenRequest wEnvT2 wReqT [wSessWithCode]).2
      = (.error 400 "invalid_grant" "Authorization code not found",
         (handleTokenRequest wEnvT2 wReqT [wSessWithCode]).2) :=
  auth_code_single_use wEnvT2 wReqT [wSessWithCode] "codetok" rfl rfl (by decide) (by decide)

end Zombie
